import Mathlib

/-!
Verification of the AI-Newz ingestion/curation core.

Shallow embedding of the Python source under `app/services/rss_service.py`
and `app/api/newsletter.py`.  Python floats are modelled as rationals,
Python string truthiness (`if s:`) as the test against the empty string or
`none`, and Python dict entries with `None`/missing values as `Option`.
-/

namespace AINewz

/-- Python truthiness of an optional string: `None` and the empty string are
falsy, every other string is truthy. -/
def strTruthy : Option String → Bool
  | none => false
  | some s => !(s == "")

/-- Lowercase a string character by character, as Python `str.lower` does on
ASCII input (embeds the `t.lower()` calls of the source). -/
def lowerStr (s : String) : String := String.mk (s.data.map Char.toLower)

/-- Helper for `pySplit`: walks the character list, accumulating the current
word (in reverse) and emitting completed words at whitespace. -/
def splitWsAux : List Char → List Char → List String
  | [], acc => if acc.isEmpty then [] else [String.mk acc.reverse]
  | c :: cs, acc =>
    if c.isWhitespace then
      if acc.isEmpty then splitWsAux cs []
      else String.mk acc.reverse :: splitWsAux cs []
    else splitWsAux cs (c :: acc)

/-- Python `str.split()` with no argument: split on runs of whitespace and
discard empty pieces. -/
def pySplit (s : String) : List String := splitWsAux s.data []

/-- The lowercase word set of a title, as built by
`set(t.lower().split())` in the source. -/
def tokenSet (s : String) : Finset String := (pySplit (lowerStr s)).toFinset

/-- Jaccard title similarity.  Embeds three textually identical functions of
the source: `title_sim` in `app/api/newsletter.py` (lines 175-184) and
`RSSService._calculate_similarity` in `app/services/rss_service.py`
(lines 308-323).  Empty input strings and empty word sets short-circuit
to 0, exactly as the Python guards do. -/
def titleSim (t1 t2 : String) : ℚ :=
  if t1 = "" ∨ t2 = "" then 0
  else if tokenSet t1 = ∅ ∨ tokenSet t2 = ∅ then 0
  else if tokenSet t1 ∪ tokenSet t2 = ∅ then 0
  else ((tokenSet t1 ∩ tokenSet t2).card : ℚ) / ((tokenSet t1 ∪ tokenSet t2).card : ℚ)

/-! ## Articles and the curation pipeline (`app/api/newsletter.py`, lines 162-215)

The Supabase query returns JSON rows; the fields the curation code reads are
modelled as a record.  Fields that the code accesses with `.get(...)` and
that may be `null` in the row are `Option`-valued. -/

/-- An article row as consumed by the curation code of
`generate_newsletter`. -/
structure Article where
  id : Nat
  title : String
  url : String
  rss_source_id : Option Nat
  quality_score : Option ℚ
  published_at : Option String
  image_url : Option String
  has_images : Option Bool
deriving DecidableEq

/-- The `has_image` helper of `generate_newsletter` (lines 192-195):
1 when `has_images` is `True`, else 1 when `image_url` is truthy, else 0. -/
def hasImage (a : Article) : Nat :=
  if a.has_images = some true then 1
  else if strTruthy a.image_url then 1 else 0

/-- Python `x.get("quality_score") or 0`: `None` and `0.0` both yield 0,
which coincides with `Option.getD 0`. -/
def qVal (a : Article) : ℚ := a.quality_score.getD 0

/-- Python `x.get("published_at") or ""`; ISO-8601 timestamp strings are
compared lexicographically by the sort, which the code relies on. -/
def pVal (a : Article) : String := a.published_at.getD ""

/-- The sort key tuple `(has_image(x), quality, published_at)` of the
`deduped.sort(key=..., reverse=True)` call, under the lexicographic order
Python gives tuples. -/
def curKey (a : Article) : Lex (Nat × Lex (ℚ × String)) :=
  toLex (hasImage a, toLex (qVal a, pVal a))

/-- The descending comparison used by the ranking sort: `x` may come before
`y` exactly when the key of `y` is at most the key of `x`. -/
def artGE (x y : Article) : Prop := curKey y ≤ curKey x

instance : DecidableRel artGE := fun x y =>
  inferInstanceAs (Decidable (curKey y ≤ curKey x))

instance : IsTotal Article artGE :=
  ⟨fun x y => (le_total (curKey y) (curKey x)).imp id id⟩

instance : IsTrans Article artGE :=
  ⟨fun _ _ _ hxy hyz => le_trans hyz hxy⟩

/-- The per-source cap loop of `generate_newsletter` (lines 163-172): walk
the list, keep an article only while the running count `by_source[sid]` of
its source identifier is below the cap.  The Python dict `by_source` is the
`counts` function. -/
def capStep (cap : Nat) (counts : Option Nat → Nat) : List Article → List Article
  | [] => []
  | a :: rest =>
    if counts a.rss_source_id < cap then
      a :: capStep cap (fun s => if s = a.rss_source_id then counts s + 1 else counts s) rest
    else capStep cap counts rest

/-- The title-similarity dedup loop of `generate_newsletter` (lines 186-190):
an article is skipped when some already-accepted article in `deduped` (the
accumulator `acc`) has title similarity at least the threshold, otherwise it
is appended. -/
def dedupeStep (thr : ℚ) (acc : List Article) : List Article → List Article
  | [] => acc
  | a :: rest =>
    if acc.any (fun b => decide (thr ≤ titleSim a.title b.title)) then
      dedupeStep thr acc rest
    else dedupeStep thr (acc ++ [a]) rest

/-- The ranking sort `deduped.sort(key=..., reverse=True)` (lines 196-204):
a stable descending sort on `curKey`, modelled by insertion sort with the
reversed comparison. -/
def sortStep (l : List Article) : List Article := List.insertionSort artGE l

/-- The fields of `NewsletterGenerateRequest` that the curation code uses
(`app/schemas/newsletter.py`: `rss_limit` default 6, `dedupe_title_similarity`
default 0.85, `per_source_cap` default 3). -/
structure CurationRequest where
  rss_limit : Nat
  dedupe_title_similarity : ℚ
  per_source_cap : Nat

/-- The in-memory curation pipeline of `generate_newsletter` applied to the
rows returned by the store query: per-source cap (guarded by Python
truthiness of `per_source_cap`), title dedup, descending rank sort, and
truncation `deduped[: request.rss_limit]`.  The final field projection is an
elementwise map that preserves order, length and the always-retained
`id`/`rss_source_id`/`published_at` fields; it is not modelled because every
claim concerns the article sequence itself. -/
def curate (req : CurationRequest) (articles : List Article) : List Article :=
  let capped := if req.per_source_cap ≠ 0
    then capStep req.per_source_cap (fun _ => 0) articles else articles
  let deduped := dedupeStep req.dedupe_title_similarity [] capped
  (sortStep deduped).take req.rss_limit

/-- The curation call including the Article Store query (lines 111-215 of
`app/api/newsletter.py`): the whole `try` block is wrapped by
`except Exception: curated_articles = []`, so a failed query yields the
empty list and generation continues. -/
def curatedArticles (queryResult : Except String (List Article))
    (req : CurationRequest) : List Article :=
  match queryResult with
  | Except.error _ => []
  | Except.ok articles => curate req articles

/-- What the caller of the endpoint can observe about curation in
`NewsletterGenerateResponse`: the expression
`included_articles=curated_articles if curated_articles else None`
maps the empty batch to `None`; there is no other error field tied to
curation in the response schema. -/
def includedArticles (queryResult : Except String (List Article))
    (req : CurationRequest) : Option (List Article) :=
  let c := curatedArticles queryResult req
  if c = [] then none else some c

/-! ## Duplicate detection (`app/services/rss_service.py`, lines 281-306) -/

/-- An `Article` ORM row as read by `detect_duplicates`. -/
structure CorpusArticle where
  id : Nat
  url : String
  title : String
  is_active : Bool
deriving DecidableEq

/-- Whether the first list is an initial segment of the second. -/
def charsLead : List Char → List Char → Bool
  | [], _ => true
  | _ :: _, [] => false
  | a :: as, b :: bs => a == b && charsLead as bs

/-- Whether the first list occurs contiguously inside the second. -/
def charsInside (needle : List Char) : List Char → Bool
  | [] => charsLead needle []
  | c :: cs => charsLead needle (c :: cs) || charsInside needle cs

/-- Case-insensitive substring containment, modelling the SQL
`ilike(f"%{pattern}%")` filter (wildcard characters inside the pattern are
not modelled; the claims do not exercise them). -/
def containsCI (hay pattern : String) : Bool :=
  charsInside (lowerStr pattern).data (lowerStr hay).data

/-- Python `s.startswith(pre)`, computed over the character lists. -/
def pyStartsWith (s pre : String) : Bool := charsLead pre.data s.data

/-- Python `title[:50]`: the first 50 characters. -/
def first50 (s : String) : String := String.mk (s.data.take 50)

/-- `RSSService.detect_duplicates` (lines 281-306), with the Article Store
modelled as the list `db` in query order: first the exact-URL lookup
(`.first()` over all rows), then the scan over rows whose title contains the
candidate title prefix case-insensitively and which are active, returning
the first one whose Jaccard similarity exceeds 0.8. -/
def detectDuplicates (db : List CorpusArticle) (url title : String) : Option Nat :=
  match db.find? (fun a => a.url == url) with
  | some a => some a.id
  | none =>
    let similar := db.filter (fun a => containsCI a.title (first50 title) && a.is_active)
    (similar.find? (fun a => decide ((0.8 : ℚ) < titleSim title a.title))).map (·.id)

/-- The duplicate-detection algorithm as the spec words it (section 4.5): the
corpus is already scoped to active articles, so the scan carries no activity
test of its own; otherwise identical.  Named definition for the refinement
comparison with `detectDuplicates`. -/
def detectDuplicatesSpecModel (db : List CorpusArticle) (url title : String) : Option Nat :=
  match db.find? (fun a => a.url == url) with
  | some a => some a.id
  | none =>
    let similar := db.filter (fun a => containsCI a.title (first50 title))
    (similar.find? (fun a => decide ((0.8 : ℚ) < titleSim title a.title))).map (·.id)

/-- `detect_duplicates` including its `try`/`except` wrapper: a store query
failure (any exception) is caught, logged, and turned into `None`, the same
value the no-match path returns. -/
def detectDuplicatesSafe (queryResult : Except String (List CorpusArticle))
    (url title : String) : Option Nat :=
  match queryResult with
  | Except.error _ => none
  | Except.ok db => detectDuplicates db url title

/-! ## Content analysis (`app/services/rss_service.py`) -/

/-- The length-suitability term of `_calculate_quality_score`
(lines 218-224): `min(1.0, word_count / 500)`, halved below 100 words and
scaled by 0.8 above 2000 words. -/
def lengthScore (word_count : Nat) : ℚ :=
  let base : ℚ := min 1 ((word_count : ℚ) / 500)
  if word_count < 100 then base * (1/2)
  else if word_count > 2000 then base * (4/5)
  else base

/-- The readability normalization `max(0, min(1.0, readability / 100))`. -/
def readNorm (readability : ℚ) : ℚ := max 0 (min 1 (readability / 100))

/-- `RSSService._calculate_quality_score` (lines 212-228). -/
def calculateQualityScore (content : String) (word_count : Nat) (readability : ℚ) : ℚ :=
  if content = "" ∨ word_count = 0 then 0
  else max 0 (min 1 (lengthScore word_count * (2/5) + readNorm readability * (3/5)))

/-- The quality formula as the spec words it: the weighted combination of
the length-suitability term (0.4) and normalized readability (0.6), with no
guard on the content string.  Named definition for the refinement
comparison with `calculateQualityScore`. -/
def qualityCombinationSpecModel (word_count : Nat) (readability : ℚ) : ℚ :=
  lengthScore word_count * (2/5) + readNorm readability * (3/5)

/-- `RSSService.calculate_reading_time` (lines 1058-1070).  The
BeautifulSoup `get_text()` call strips markup through an external library;
the function is embedded over the resulting text, on which the leading
emptiness check coincides with the check on the raw content. -/
def calculateReadingTime (textContent : String) : Nat :=
  if textContent = "" then 1
  else min (max 1 ((pySplit textContent).length / 200)) 60

/-! ## Visual asset resolution
(`app/services/rss_service.py`, lines 681-791 and 893-911)

`extract_images_from_content` walks three steps: feed-native hints, the
first inline `<img>` of the content markup, then a network fetch of the
article page.  The BeautifulSoup parse of the content is represented by the
list of its `<img>` tags; the srcset candidate selection (Python float
parsing wrapped in `try`) and `urllib.parse.urljoin` are passed in as
function parameters, so every theorem below holds for every behaviour of
those helpers; the network fetch `_fetch_article_image` is an `Except`
parameter whose `error` case is the exception path of the surrounding
`try`/`except`. -/

/-- The attributes of one parsed `<img>` element that the source reads. -/
structure ImgTag where
  src : Option String
  dataSrc : Option String
  dataOriginal : Option String
  dataLazy : Option String
  dataThumbnail : Option String
  srcset : Option String
  alt : Option String
deriving DecidableEq

/-- The result dict `{image_url, thumbnail_url, image_alt_text}`. -/
structure ImageData where
  image_url : Option String
  thumbnail_url : Option String
  image_alt_text : Option String
deriving DecidableEq

/-- Python `a or b` on optional strings: the left value when truthy,
otherwise the right value. -/
def pyOr (a b : Option String) : Option String := if strTruthy a then a else b

/-- The relative-URL fixup shared by the image and thumbnail paths
(lines 743-750 and 766-771): protocol-relative URLs are upgraded to https,
root-relative URLs are joined against a truthy article URL, everything else
is kept as is; URLs already starting with `http` are untouched. -/
def relFix (urljoin : String → String → String) (articleURL : Option String)
    (o : Option String) : Option String :=
  match o with
  | none => none
  | some s =>
    if s ≠ "" ∧ ¬ pyStartsWith s "http" then
      if pyStartsWith s "//" then some ("https:" ++ s)
      else if pyStartsWith s "/" ∧ strTruthy articleURL then
        some (urljoin (articleURL.getD "") s)
      else some s
    else some s

/-- The keyword list of the thumbnail search (line 762). -/
def thumbKeywords : List String := ["thumbnail", "thumb", "small", "preview"]

/-- The thumbnail search loop (lines 759-773): the first image whose
lazy-attribute chain lowercased contains a thumbnail keyword and whose raw
`src`, after relative fixup, is truthy and starts with `http`. -/
def findThumb (urljoin : String → String → String) (articleURL : Option String) :
    List ImgTag → Option String
  | [] => none
  | t :: rest =>
    if thumbKeywords.any (fun k => charsInside k.data
        (lowerStr ((pyOr (pyOr (pyOr t.src t.dataSrc) t.dataOriginal) t.dataLazy).getD "")).data) then
      if strTruthy (relFix urljoin articleURL t.src) ∧
          pyStartsWith ((relFix urljoin articleURL t.src).getD "") "http" then
        relFix urljoin articleURL t.src
      else findThumb urljoin articleURL rest
    else findThumb urljoin articleURL rest

/-- Step 1 of `extract_images_from_content` (lines 694-701): feed-native
hints are copied into the result under Python truthiness, with no scheme
validation whatsoever. -/
def rssStep (rssImages : Option ImageData) : ImageData :=
  match rssImages with
  | none => ⟨none, none, none⟩
  | some r =>
    ⟨if strTruthy r.image_url then r.image_url else none,
     if strTruthy r.thumbnail_url then r.thumbnail_url else none,
     if strTruthy r.image_alt_text then r.image_alt_text else none⟩

/-- The inline-image candidate for the first `<img>` element (lines
706-750): the lazy-attribute `or` chain, the srcset fallback when that
chain is falsy, and the relative-URL fixup. -/
def inlineCandidate (main : ImgTag) (articleURL : Option String)
    (parseSrcset : String → Option String) (urljoin : String → String → String) :
    Option String :=
  relFix urljoin articleURL
    (if ¬ strTruthy (pyOr (pyOr (pyOr (pyOr main.src main.dataSrc) main.dataOriginal)
          main.dataLazy) main.dataThumbnail) ∧ strTruthy main.srcset then
      match parseSrcset (main.srcset.getD "") with
      | some u => some u
      | none => pyOr (pyOr (pyOr (pyOr main.src main.dataSrc) main.dataOriginal)
          main.dataLazy) main.dataThumbnail
    else pyOr (pyOr (pyOr (pyOr main.src main.dataSrc) main.dataOriginal)
      main.dataLazy) main.dataThumbnail)

/-- Step 2 of `extract_images_from_content` (lines 703-775): the first
inline `<img>` of the content markup supplies the main image, accepted only
when truthy and `http`-prefixed; then the thumbnail keyword search over all
inline images. -/
def inlineStep (content : String) (imgs : List ImgTag) (articleURL : Option String)
    (parseSrcset : String → Option String) (urljoin : String → String → String)
    (d : ImageData) : ImageData :=
  if ¬ strTruthy d.image_url ∧ content ≠ "" then
    match imgs with
    | [] => d
    | main :: _ =>
      ⟨if strTruthy (inlineCandidate main articleURL parseSrcset urljoin) ∧
            pyStartsWith ((inlineCandidate main articleURL parseSrcset urljoin).getD "") "http" then
          inlineCandidate main articleURL parseSrcset urljoin
        else d.image_url,
       if ¬ strTruthy d.thumbnail_url then
          match findThumb urljoin articleURL imgs with
          | some u => some u
          | none => d.thumbnail_url
        else d.thumbnail_url,
       if strTruthy (inlineCandidate main articleURL parseSrcset urljoin) ∧
            pyStartsWith ((inlineCandidate main articleURL parseSrcset urljoin).getD "") "http" then
          some (main.alt.getD "")
        else d.image_alt_text⟩
  else d

/-- Step 3 of `extract_images_from_content` (lines 778-786): fetch the
article page when no image was found; any failure is swallowed by the
surrounding `try`/`except` and leaves the result untouched. -/
def pageStep (articleURL : Option String) (pageFetch : Except Unit (Option String))
    (d : ImageData) : ImageData :=
  if ¬ strTruthy d.image_url ∧ strTruthy articleURL then
    match pageFetch with
    | Except.error _ => d
    | Except.ok none => d
    | Except.ok (some u) =>
      if u ≠ "" then
        ⟨some u, if ¬ strTruthy d.thumbnail_url then some u else d.thumbnail_url,
         d.image_alt_text⟩
      else d
  else d

/-- Step 4 of `extract_images_from_content` (lines 788-790): promote the
thumbnail to main image when no main image was found. -/
def fallbackStep (d : ImageData) : ImageData :=
  if ¬ strTruthy d.image_url ∧ strTruthy d.thumbnail_url then
    ⟨d.thumbnail_url, d.thumbnail_url, d.image_alt_text⟩
  else d

/-- `RSSService.extract_images_from_content` (lines 681-791): the four
sequential assignment blocks of the source, composed.  `parseSrcset`
returns the candidate the srcset block would pick (`none` for an empty
parse or a swallowed exception), `pageFetch` is the outcome of
`_fetch_article_image` (`Except.error` being an exception caught by the
surrounding `try`). -/
def extractImages (rssImages : Option ImageData) (content : String)
    (imgs : List ImgTag) (articleURL : Option String)
    (parseSrcset : String → Option String) (urljoin : String → String → String)
    (pageFetch : Except Unit (Option String)) : ImageData :=
  fallbackStep (pageStep articleURL pageFetch
    (inlineStep content imgs articleURL parseSrcset urljoin (rssStep rssImages)))

/-- The property that every URL held in the result starts with `http`. -/
def httpOnly (d : ImageData) : Prop :=
  (∀ u, d.image_url = some u → pyStartsWith u "http" = true) ∧
  (∀ u, d.thumbnail_url = some u → pyStartsWith u "http" = true)

/-- The image extensions list of `_is_valid_image_url` (line 899). -/
def imageExts : List String := [".jpg", ".jpeg", ".png", ".gif", ".webp", ".svg"]

/-- The hosting-pattern list of `_is_valid_image_url` (line 907). -/
def imagePatterns : List String := ["imgur", "flickr", "unsplash", "pexels", "pixabay"]

/-- `RSSService._is_valid_image_url` (lines 893-911): requires the `http`
prefix, then accepts on a known extension or hosting pattern occurring
anywhere in the lowercased URL. -/
def isValidImageURL (url : String) : Bool :=
  if url = "" ∨ ¬ pyStartsWith url "http" then false
  else
    let urlLower := lowerStr url
    if imageExts.any (fun e => charsInside e.data urlLower.data) then true
    else if imagePatterns.any (fun p => charsInside p.data urlLower.data) then true
    else false

/-! ## Sample articles used by the concrete scenarios -/

/-- First scenario article of spec section 8, Scenario 2. -/
def artA : Article :=
  ⟨1, "AI Breakthrough in Robotics", "https://s/a", some 10, none, none, none, none⟩

/-- Second scenario article of spec section 8, Scenario 2. -/
def artB : Article :=
  ⟨2, "Robotics AI Breakthrough", "https://s/b", some 11, none, none, none, none⟩

/-- Two articles sharing one source, for the per-source-cap witness. -/
def artS1 : Article := ⟨3, "first story", "https://s/c", some 5, none, none, none, none⟩

/-- Second article of the shared source. -/
def artS2 : Article := ⟨4, "second story", "https://s/d", some 5, none, none, none, none⟩

/-! ## Helper lemmas -/

/-- Evaluation lemma for `titleSim` on concrete titles: once the emptiness
guards are discharged, the similarity is the card ratio. -/
theorem titleSim_eval (t1 t2 : String) (m n : Nat) (h1 : t1 ≠ "") (h2 : t2 ≠ "")
    (h3 : tokenSet t1 ≠ ∅) (h4 : tokenSet t2 ≠ ∅)
    (hm : (tokenSet t1 ∩ tokenSet t2).card = m)
    (hn : (tokenSet t1 ∪ tokenSet t2).card = n) (hn0 : n ≠ 0) :
    titleSim t1 t2 = (m : ℚ) / (n : ℚ) := by
  have hu : tokenSet t1 ∪ tokenSet t2 ≠ ∅ := by
    intro h
    exact hn0 (by rw [← hn, h, Finset.card_empty])
  unfold titleSim
  rw [if_neg (by tauto), if_neg (by tauto), if_neg hu, hm, hn]

/-- The empty curation pool stays empty through every pipeline stage. -/
theorem curate_nil (req : CurationRequest) : curate req [] = [] := by
  simp [curate, capStep, dedupeStep, sortStep]

theorem lengthScore_nonneg (wc : Nat) : 0 ≤ lengthScore wc := by
  unfold lengthScore
  have hb : (0:ℚ) ≤ min 1 ((wc : ℚ) / 500) :=
    le_min (by norm_num) (by positivity)
  split
  · positivity
  · split
    · positivity
    · exact hb

theorem lengthScore_le_one (wc : Nat) : lengthScore wc ≤ 1 := by
  unfold lengthScore
  have hb1 : min 1 ((wc : ℚ) / 500) ≤ 1 := min_le_left _ _
  have hb0 : (0:ℚ) ≤ min 1 ((wc : ℚ) / 500) :=
    le_min (by norm_num) (by positivity)
  split
  · nlinarith
  · split
    · nlinarith
    · exact hb1

theorem readNorm_nonneg (r : ℚ) : 0 ≤ readNorm r := le_max_left 0 _

theorem readNorm_le_one (r : ℚ) : readNorm r ≤ 1 :=
  max_le (by norm_num) (min_le_left _ _)

/-- The weighted combination already lies in the unit interval, so the final
clamp of the quality score is the identity there. -/
theorem qualityCombination_mem (wc : Nat) (r : ℚ) :
    0 ≤ qualityCombinationSpecModel wc r ∧ qualityCombinationSpecModel wc r ≤ 1 := by
  have h1 := lengthScore_nonneg wc
  have h2 := lengthScore_le_one wc
  have h3 := readNorm_nonneg r
  have h4 := readNorm_le_one r
  unfold qualityCombinationSpecModel
  constructor <;> nlinarith

/-! ## C1: failure semantics of the curation call -/

/-- Claim C1 counterexample: with the Article Store unreachable, the
response marker `included_articles` is `None`, exactly the value produced
when the store is reachable and nothing matched — no error marker exists,
refuting the claim that the two cases are distinguishable. -/
theorem curation_failure_counterexample :
    includedArticles (Except.error "Article Store unreachable") ⟨6, 0.85, 3⟩ = none ∧
    includedArticles (Except.ok []) ⟨6, 0.85, 3⟩ = none := by
  constructor
  · simp [includedArticles, curatedArticles]
  · simp [includedArticles, curatedArticles, curate_nil]

/-- Claim C1 (amended): a failed store query is caught inside the curation
block, which then proceeds with an empty curated batch; the observable
response field is `None`, identical to the nothing-matched outcome, and no
error marker is returned. -/
theorem curation_failure_amended (e : String) (req : CurationRequest) :
    curatedArticles (Except.error e) req = [] ∧
    includedArticles (Except.error e) req = none ∧
    includedArticles (Except.error e) req = includedArticles (Except.ok []) req := by
  refine ⟨rfl, by simp [includedArticles, curatedArticles], ?_⟩
  simp [includedArticles, curatedArticles, curate_nil]

/-! ## C10: duplicate detection swallows store errors -/

/-- Claim C10: an exception inside `detect_duplicates` (modelled as the
store query failing) is caught and turned into `None`, the same value the
empty-corpus no-match path returns, so the candidate is treated as new and
ingestion proceeds instead of the error propagating. -/
theorem detect_duplicates_error_isolated (e url title : String) :
    detectDuplicatesSafe (Except.error e) url title = none ∧
    detectDuplicatesSafe (Except.error e) url title =
      detectDuplicatesSafe (Except.ok []) url title := by
  exact ⟨rfl, rfl⟩

/-! ## C7: reading time -/

/-- Claim C7: for nonempty text the reading time is
`min (max 1 (word_count / 200)) 60`, hence always between 1 and 60. -/
theorem reading_time_formula (t : String) (h : t ≠ "") :
    calculateReadingTime t = min (max 1 ((pySplit t).length / 200)) 60 ∧
    1 ≤ calculateReadingTime t ∧ calculateReadingTime t ≤ 60 := by
  unfold calculateReadingTime
  rw [if_neg h]
  exact ⟨rfl, le_min (le_max_left 1 _) (by norm_num), min_le_right _ _⟩

/-- Witness for C7 at a concrete nonempty text. -/
theorem reading_time_witness :
    1 ≤ calculateReadingTime "hello world" ∧ calculateReadingTime "hello world" ≤ 60 :=
  ⟨(reading_time_formula "hello world" (by decide)).2.1,
   (reading_time_formula "hello world" (by decide)).2.2⟩

/-! ## C5: similarity symmetry and self-similarity -/

/-- Claim C5 counterexample: the similarity of the empty title with itself
is 0, not 1, because the code short-circuits on falsy inputs. -/
theorem titleSim_self_counterexample :
    titleSim "" "" = 0 ∧ titleSim "" "" ≠ 1 := by
  constructor
  · rfl
  · intro h
    rw [show titleSim "" "" = 0 from rfl] at h
    norm_num at h

/-- Claim C5 (amended): the Jaccard title similarity is symmetric for all
titles, and `similarity(A,A) = 1` for every title whose lowercase word set
is nonempty (titles that are empty or all whitespace yield 0 instead). -/
theorem titleSim_symm_self (A B : String) :
    titleSim A B = titleSim B A ∧ (tokenSet A ≠ ∅ → titleSim A A = 1) := by
  constructor
  · unfold titleSim
    by_cases h1 : A = "" ∨ B = ""
    · rw [if_pos h1, if_pos (or_comm.mp h1)]
    · rw [if_neg h1, if_neg (fun h => h1 (or_comm.mp h))]
      by_cases h2 : tokenSet A = ∅ ∨ tokenSet B = ∅
      · rw [if_pos h2, if_pos (or_comm.mp h2)]
      · rw [if_neg h2, if_neg (fun h => h2 (or_comm.mp h))]
        rw [show tokenSet B ∪ tokenSet A = tokenSet A ∪ tokenSet B from
          Finset.union_comm _ _]
        rw [show tokenSet B ∩ tokenSet A = tokenSet A ∩ tokenSet B from
          Finset.inter_comm _ _]
  · intro hA
    have hAe : A ≠ "" := by
      intro h0
      exact hA (by rw [h0]; rfl)
    have hcard : (tokenSet A).card ≠ 0 := by
      intro hc
      exact hA (Finset.card_eq_zero.mp hc)
    unfold titleSim
    rw [if_neg (by tauto), if_neg (by tauto),
      if_neg (by rw [Finset.union_self]; exact hA),
      Finset.inter_self, Finset.union_self]
    exact div_self (Nat.cast_ne_zero.mpr hcard)

/-- Witness for C5 at a concrete title with a nonempty word set. -/
theorem titleSim_witness : titleSim "ai news" "ai news" = 1 :=
  (titleSim_symm_self "ai news" "daily digest").2 (by decide)

/-! ## C6: quality score -/

/-- Claim C6 counterexample: at empty content with positive word count the
code returns 0 while the claimed weighted combination equals 1, so the
universally quantified equality of the claim fails. -/
theorem quality_score_counterexample :
    calculateQualityScore "" 500 100 = 0 ∧
    qualityCombinationSpecModel 500 100 = 1 ∧
    calculateQualityScore "" 500 100 ≠ qualityCombinationSpecModel 500 100 := by
  have h1 : calculateQualityScore "" 500 100 = 0 := by
    unfold calculateQualityScore
    rw [if_pos (Or.inl rfl)]
  have h2 : qualityCombinationSpecModel 500 100 = 1 := by
    unfold qualityCombinationSpecModel lengthScore readNorm
    norm_num
  refine ⟨h1, h2, ?_⟩
  rw [h1, h2]
  norm_num

/-- Claim C6 (amended): the quality score always lies in the unit interval;
it equals the weighted combination (length-suitability times 0.4 plus
normalized readability times 0.6) whenever the content is nonempty and the
word count positive; and zero word count (or empty content) forces score 0
regardless of readability. -/
theorem quality_score_amended (content : String) (wc : Nat) (r : ℚ) :
    0 ≤ calculateQualityScore content wc r ∧
    calculateQualityScore content wc r ≤ 1 ∧
    (content ≠ "" → wc ≠ 0 →
      calculateQualityScore content wc r = qualityCombinationSpecModel wc r) ∧
    (wc = 0 → calculateQualityScore content wc r = 0) := by
  obtain ⟨hc0, hc1⟩ := qualityCombination_mem wc r
  refine ⟨?_, ?_, ?_, ?_⟩
  · unfold calculateQualityScore
    split
    · norm_num
    · exact le_max_left 0 _
  · unfold calculateQualityScore
    split
    · norm_num
    · exact max_le (by norm_num) (min_le_left _ _)
  · intro h1 h2
    unfold calculateQualityScore
    rw [if_neg (by tauto)]
    unfold qualityCombinationSpecModel at hc0 hc1 ⊢
    rw [min_eq_right hc1, max_eq_right hc0]
  · intro h0
    unfold calculateQualityScore
    rw [if_pos (Or.inr h0)]

/-- Witness for C6 at concrete nonempty content and positive word count. -/
theorem quality_score_witness :
    calculateQualityScore "some text" 500 50 = qualityCombinationSpecModel 500 50 :=
  (quality_score_amended "some text" 500 50).2.2.1 (by decide) (by decide)

/-! ## C3: per-source cap -/

/-- For each source, the capped list keeps exactly the earliest occurrences:
its restriction to one source identifier is the `cap - counts sid` prefix of
the restriction of the input. -/
theorem capStep_filter (cap : Nat) (sid : Option Nat) :
    ∀ (l : List Article) (counts : Option Nat → Nat),
      (capStep cap counts l).filter (fun a => decide (a.rss_source_id = sid)) =
        (l.filter (fun a => decide (a.rss_source_id = sid))).take (cap - counts sid)
  | [], counts => by simp [capStep]
  | a :: rest, counts => by
    by_cases hc : counts a.rss_source_id < cap
    · rw [capStep, if_pos hc]
      by_cases hs : a.rss_source_id = sid
      · rw [List.filter_cons_of_pos (by simp [hs]),
          List.filter_cons_of_pos (by simp [hs]),
          capStep_filter cap sid rest]
        simp only [if_pos hs.symm]
        rw [show cap - counts sid = (cap - (counts sid + 1)) + 1 by
          subst hs; omega, List.take_succ_cons]
      · rw [List.filter_cons_of_neg (by simp [hs]),
          List.filter_cons_of_neg (by simp [hs]),
          capStep_filter cap sid rest]
        simp only [if_neg (show ¬ sid = a.rss_source_id from fun h => hs h.symm)]
    · rw [capStep, if_neg hc]
      by_cases hs : a.rss_source_id = sid
      · rw [List.filter_cons_of_pos (by simp [hs]),
          capStep_filter cap sid rest,
          show cap - counts sid = 0 by subst hs; omega]
        simp
      · rw [List.filter_cons_of_neg (by simp [hs]),
          capStep_filter cap sid rest]

/-- The cap step only removes articles, preserving the input order. -/
theorem capStep_sublist (cap : Nat) :
    ∀ (l : List Article) (counts : Option Nat → Nat),
      (capStep cap counts l).Sublist l
  | [], _ => by simp [capStep]
  | a :: rest, counts => by
    rw [capStep]
    split
    · exact (capStep_sublist cap rest _).cons₂ a
    · exact (capStep_sublist cap rest counts).cons a

/-- The dedup step produces a subsequence of its accumulator followed by its
input. -/
theorem dedupeStep_sublist (thr : ℚ) :
    ∀ (l acc : List Article), (dedupeStep thr acc l).Sublist (acc ++ l)
  | [], acc => by simp [dedupeStep]
  | a :: rest, acc => by
    rw [dedupeStep]
    split
    · exact (dedupeStep_sublist thr rest acc).trans
        ((List.append_sublist_append_left acc).mpr (List.sublist_cons_self a rest))
    · have h := dedupeStep_sublist thr rest (acc ++ [a])
      rwa [List.append_assoc, List.singleton_append] at h

/-- Claim C3: for every positive cap, the per-source-cap step keeps at most
`cap` articles per source identifier, preserves the input order, and for
each source keeps exactly the earliest occurrences (a greedy prefix, not a
round robin); consequently the final curated batch never holds more than
`cap` articles of one source. -/
theorem per_source_cap_correct (cap : Nat) (h : 0 < cap) (arts : List Article) :
    (∀ sid, ((capStep cap (fun _ => 0) arts).countP
        (fun a => decide (a.rss_source_id = sid))) ≤ cap) ∧
    (capStep cap (fun _ => 0) arts).Sublist arts ∧
    (∀ sid, (capStep cap (fun _ => 0) arts).filter (fun a => decide (a.rss_source_id = sid)) =
        (arts.filter (fun a => decide (a.rss_source_id = sid))).take cap) ∧
    (∀ req : CurationRequest, req.per_source_cap = cap →
      ∀ sid, ((curate req arts).countP (fun a => decide (a.rss_source_id = sid))) ≤ cap) := by
  have hfil : ∀ sid,
      (capStep cap (fun _ => 0) arts).filter (fun a => decide (a.rss_source_id = sid)) =
        (arts.filter (fun a => decide (a.rss_source_id = sid))).take cap := by
    intro sid
    rw [capStep_filter cap sid arts (fun _ => 0), Nat.sub_zero]
  have hcount : ∀ sid,
      ((capStep cap (fun _ => 0) arts).countP (fun a => decide (a.rss_source_id = sid))) ≤ cap := by
    intro sid
    rw [List.countP_eq_length_filter, hfil sid, List.length_take]
    exact min_le_left _ _
  refine ⟨hcount, capStep_sublist cap arts _, hfil, ?_⟩
  intro req hreq sid
  have hcap0 : req.per_source_cap ≠ 0 := by omega
  unfold curate
  rw [if_pos hcap0, hreq]
  set p : Article → Bool := fun a => decide (a.rss_source_id = sid) with hp
  calc ((sortStep (dedupeStep req.dedupe_title_similarity []
          (capStep cap (fun _ => 0) arts))).take req.rss_limit).countP p
      ≤ (sortStep (dedupeStep req.dedupe_title_similarity []
          (capStep cap (fun _ => 0) arts))).countP p :=
        (List.take_sublist _ _).countP_le p
    _ = (dedupeStep req.dedupe_title_similarity []
          (capStep cap (fun _ => 0) arts)).countP p :=
        (List.perm_insertionSort artGE _).countP_eq p
    _ ≤ (capStep cap (fun _ => 0) arts).countP p := by
        have hs := dedupeStep_sublist req.dedupe_title_similarity
          (capStep cap (fun _ => 0) arts) []
        rw [List.nil_append] at hs
        exact hs.countP_le p
    _ ≤ cap := hcount sid

/-- Witness for C3: two same-source articles under cap 1. -/
theorem per_source_cap_witness :
    ((capStep 1 (fun _ => 0) [artS1, artS2]).countP
      (fun a => decide (a.rss_source_id = some 5))) ≤ 1 :=
  (per_source_cap_correct 1 (by decide) [artS1, artS2]).1 (some 5)

/-! ## C4: title-similarity dedup -/

/-- Every article kept by the dedup walk has similarity below the threshold
with every article accepted before it. -/
theorem dedupeStep_pairwise (thr : ℚ) :
    ∀ (l acc : List Article),
      acc.Pairwise (fun x y => titleSim y.title x.title < thr) →
      (dedupeStep thr acc l).Pairwise (fun x y => titleSim y.title x.title < thr)
  | [], acc => fun h => by rwa [dedupeStep]
  | a :: rest, acc => fun h => by
    rw [dedupeStep]
    split
    · exact dedupeStep_pairwise thr rest acc h
    · rename_i hany
      refine dedupeStep_pairwise thr rest (acc ++ [a]) ?_
      rw [List.pairwise_append]
      refine ⟨h, List.pairwise_singleton _ _, ?_⟩
      intro x hx b hb
      rw [List.mem_singleton] at hb
      subst hb
      have := fun hle => hany (List.any_eq_true.mpr ⟨x, hx, decide_eq_true hle⟩)
      exact lt_of_not_le this

/-- The similarity of the two Scenario 2 titles is exactly 3/4. -/
theorem titleSim_scenario :
    titleSim "Robotics AI Breakthrough" "AI Breakthrough in Robotics" = 3/4 := by
  have h := titleSim_eval "Robotics AI Breakthrough" "AI Breakthrough in Robotics" 3 4
    (by decide) (by decide) (by decide) (by decide) (by decide) (by decide) (by decide)
  rw [h]
  norm_num

/-- Claim C4: the dedup walk keeps a subsequence of its input in order, any
kept article has similarity strictly below the threshold with every earlier
kept article, and on the Scenario 2 pair (similarity 3/4) a threshold of
0.85 keeps both articles while a threshold of 0.70 keeps only the first
encountered. -/
theorem dedup_correct :
    (∀ (thr : ℚ) (l : List Article), (dedupeStep thr [] l).Sublist l) ∧
    (∀ (thr : ℚ) (l : List Article),
      (dedupeStep thr [] l).Pairwise (fun x y => titleSim y.title x.title < thr)) ∧
    dedupeStep (0.85 : ℚ) [] [artA, artB] = [artA, artB] ∧
    dedupeStep (0.70 : ℚ) [] [artA, artB] = [artA] := by
  have hsim : titleSim artB.title artA.title = 3/4 := titleSim_scenario
  refine ⟨?_, ?_, ?_, ?_⟩
  · intro thr l
    have h := dedupeStep_sublist thr l []
    rwa [List.nil_append] at h
  · intro thr l
    exact dedupeStep_pairwise thr l [] (List.Pairwise.nil)
  · have hlt : ¬((0.85 : ℚ) ≤ titleSim artB.title artA.title) := by
      rw [hsim]; norm_num
    simp [dedupeStep, hlt]
  · have hle : (0.70 : ℚ) ≤ titleSim artB.title artA.title := by
      rw [hsim]; norm_num
    simp [dedupeStep, hle]

/-! ## C8: duplicate detection against an active corpus -/

/-- Claim C8: over a corpus of active articles the detector coincides with
the spec algorithm — exact URL match first, then the first
substring-prefiltered article with Jaccard similarity strictly above 0.8,
otherwise null; and if no article shares the URL and none exceeds the
similarity bound, the result is null, meaning new and non-duplicate. -/
theorem detect_duplicates_matches_spec (db : List CorpusArticle) (url title : String)
    (h : ∀ a ∈ db, a.is_active = true) :
    detectDuplicates db url title = detectDuplicatesSpecModel db url title ∧
    ((∀ a ∈ db, a.url ≠ url) → (∀ a ∈ db, ¬ ((0.8 : ℚ) < titleSim title a.title)) →
      detectDuplicates db url title = none) := by
  have hfil : db.filter (fun a => containsCI a.title (first50 title) && a.is_active) =
      db.filter (fun a => containsCI a.title (first50 title)) := by
    apply List.filter_congr
    intro a ha
    rw [h a ha, Bool.and_true]
  constructor
  · unfold detectDuplicates detectDuplicatesSpecModel
    rw [hfil]
  · intro hurl hsim
    unfold detectDuplicates
    have hfind : db.find? (fun a => a.url == url) = none := by
      rw [List.find?_eq_none]
      intro a ha
      simpa using hurl a ha
    have hnone : (db.filter (fun a => containsCI a.title (first50 title) && a.is_active)).find?
        (fun a => decide ((0.8 : ℚ) < titleSim title a.title)) = none := by
      rw [List.find?_eq_none]
      intro a ha
      have ham : a ∈ db := (List.mem_filter.mp ha).1
      simpa using hsim a ham
    rw [hfind]
    show ((db.filter (fun a => containsCI a.title (first50 title) && a.is_active)).find?
        (fun a => decide ((0.8 : ℚ) < titleSim title a.title))).map (·.id) = none
    rw [hnone]
    rfl

/-- Witness for C8: a one-article active corpus matched by exact URL. -/
theorem detect_duplicates_witness :
    detectDuplicates [⟨7, "https://x/a", "Hello World", true⟩] "https://x/a" "Hello" =
      detectDuplicatesSpecModel [⟨7, "https://x/a", "Hello World", true⟩] "https://x/a" "Hello" :=
  (detect_duplicates_matches_spec [⟨7, "https://x/a", "Hello World", true⟩]
    "https://x/a" "Hello" (by decide)).1

/-! ## C2: curation ranking order -/

/-- The descending sort relation implies the claimed pairwise ordering
facts: no later article out-images an earlier one, quality decides inside
an image class, recency decides quality ties. -/
theorem artGE_implies_order {x y : Article} (hxy : artGE x y) :
    hasImage y ≤ hasImage x ∧
    (hasImage x = hasImage y → qVal y ≤ qVal x) ∧
    (hasImage x = hasImage y → qVal x = qVal y → pVal y ≤ pVal x) := by
  unfold artGE curKey at hxy
  rw [Prod.Lex.le_iff] at hxy
  rcases hxy with hlt | ⟨heq, hinner⟩
  · exact ⟨le_of_lt hlt, fun he => absurd hlt (by rw [he]; exact lt_irrefl _),
      fun he _ => absurd hlt (by rw [he]; exact lt_irrefl _)⟩
  · rw [Prod.Lex.le_iff] at hinner
    refine ⟨le_of_eq heq, ?_, ?_⟩
    · intro _
      rcases hinner with hq | ⟨hq, _⟩
      · exact le_of_lt hq
      · exact le_of_eq hq
    · intro _ hqe
      rcases hinner with hq | ⟨_, hp⟩
      · exact absurd hq (by rw [hqe]; exact lt_irrefl _)
      · exact hp

/-- Claim C2: in every curated batch, for any two surviving articles in
output order, the later one never has an image when the earlier one lacks
one; with equal image indicators the later quality never exceeds the
earlier; and with equal quality as well, the later `published_at` never
exceeds the earlier (timestamps being ISO strings compared
lexicographically, as the code compares them). -/
theorem curation_ordering (req : CurationRequest) (arts : List Article) :
    (curate req arts).Pairwise (fun x y =>
      hasImage y ≤ hasImage x ∧
      (hasImage x = hasImage y → qVal y ≤ qVal x) ∧
      (hasImage x = hasImage y → qVal x = qVal y → pVal y ≤ pVal x)) := by
  unfold curate
  apply List.Pairwise.sublist (List.take_sublist _ _)
  have hs : (sortStep (dedupeStep req.dedupe_title_similarity []
      (if req.per_source_cap ≠ 0 then capStep req.per_source_cap (fun _ => 0) arts
        else arts))).Pairwise artGE :=
    List.sorted_insertionSort artGE _
  exact hs.imp (fun h => artGE_implies_order h)

/-! ## C9: visual asset resolution -/

/-- A failed page fetch leaves the image data untouched. -/
theorem pageStep_error (aurl : Option String) (e : Unit) (d : ImageData) :
    pageStep aurl (Except.error e) d = d := by
  unfold pageStep
  split <;> rfl

/-- An empty page-fetch result leaves the image data untouched. -/
theorem pageStep_ok_none (aurl : Option String) (d : ImageData) :
    pageStep aurl (Except.ok none) d = d := by
  unfold pageStep
  split <;> rfl

/-- With no inline `<img>` element the inline step changes nothing. -/
theorem inlineStep_nil (content : String) (aurl : Option String)
    (pj : String → Option String) (uj : String → String → String) (d : ImageData) :
    inlineStep content [] aurl pj uj d = d := by
  unfold inlineStep
  split <;> rfl

/-- Every thumbnail the keyword search returns has passed the
`startswith("http")` acceptance guard. -/
theorem findThumb_startsWith (uj : String → String → String) (aurl : Option String) :
    ∀ (imgs : List ImgTag) (u : String),
      findThumb uj aurl imgs = some u → pyStartsWith u "http" = true
  | [], u => by simp [findThumb]
  | t :: rest, u => by
    rw [findThumb]
    split
    · split
      · rename_i hcond
        intro he
        obtain ⟨h1, h2⟩ := hcond
        rw [he] at h2
        simpa using h2
      · exact findThumb_startsWith uj aurl rest u
    · exact findThumb_startsWith uj aurl rest u

/-- The inline step only installs URLs passing the `http` guard. -/
theorem inlineStep_httpOnly (content : String) (imgs : List ImgTag)
    (aurl : Option String) (pj : String → Option String)
    (uj : String → String → String) (d : ImageData) (hd : httpOnly d) :
    httpOnly (inlineStep content imgs aurl pj uj d) := by
  unfold inlineStep
  split
  · cases imgs with
    | nil => exact hd
    | cons main rest =>
      refine ⟨?_, ?_⟩
      · intro u hu
        dsimp only at hu
        split at hu
        · rename_i hkeep
          rw [hu] at hkeep
          simpa using hkeep.2
        · exact hd.1 u hu
      · intro u hu
        dsimp only at hu
        split at hu
        · rcases hft : findThumb uj aurl (main :: rest) with _ | u0
          · rw [hft] at hu
            exact hd.2 u hu
          · rw [hft] at hu
            dsimp only at hu
            injection hu with h
            subst h
            exact findThumb_startsWith uj aurl (main :: rest) u0 hft
        · exact hd.2 u hu
  · exact hd

/-- The thumbnail-promotion step preserves the scheme property. -/
theorem fallbackStep_httpOnly (d : ImageData) (hd : httpOnly d) :
    httpOnly (fallbackStep d) := by
  unfold fallbackStep
  split
  · exact ⟨fun u hu => hd.2 u hu, fun u hu => hd.2 u hu⟩
  · exact hd

/-- Claim C9 counterexample: a feed-native hint with an `ftp` scheme is
accepted verbatim as the resolved image URL, refuting the claim that a URL
is accepted as an image candidate only if it starts with an HTTP scheme. -/
theorem image_scheme_counterexample :
    extractImages (some ⟨some "ftp://example.com/pic.jpg", none, none⟩) "" []
      none (fun _ => none) (fun _ r => r) (Except.ok none) =
      ⟨some "ftp://example.com/pic.jpg", none, none⟩ ∧
    pyStartsWith "ftp://example.com/pic.jpg" "http" = false := by
  constructor
  · rfl
  · rfl

/-- Claim C9 (amended): visual asset resolution is a total function whose
page-fetch failure branch is indistinguishable from an empty fetch result;
with no feed-native hint, no inline image and an unreachable article page
the result is all-null; inline-markup candidates (image and thumbnail) are
accepted only with the `http` prefix, and `_is_valid_image_url` likewise
accepts only `http`-prefixed URLs — but feed-native hints bypass the scheme
check, as the counterexample shows. -/
theorem image_resolution_amended :
    (∀ rss content imgs aurl pj uj (e : Unit),
      extractImages rss content imgs aurl pj uj (Except.error e) =
        extractImages rss content imgs aurl pj uj (Except.ok none)) ∧
    (∀ (content : String) (aurl : String) (pj : String → Option String)
        (uj : String → String → String) (e : Unit),
      extractImages none content [] (some aurl) pj uj (Except.error e) =
        ⟨none, none, none⟩) ∧
    (∀ content imgs aurl pj uj,
      httpOnly (extractImages none content imgs aurl pj uj (Except.ok none))) ∧
    (∀ u, isValidImageURL u = true → pyStartsWith u "http" = true) := by
  have hnull : httpOnly (⟨none, none, none⟩ : ImageData) := by
    unfold httpOnly
    refine ⟨fun u hu => ?_, fun u hu => ?_⟩ <;> cases hu
  refine ⟨?_, ?_, ?_, ?_⟩
  · intro rss content imgs aurl pj uj e
    unfold extractImages
    rw [pageStep_error, pageStep_ok_none]
  · intro content aurl pj uj e
    unfold extractImages
    rw [inlineStep_nil, pageStep_error]
    rfl
  · intro content imgs aurl pj uj
    unfold extractImages
    rw [pageStep_ok_none]
    exact fallbackStep_httpOnly _ (inlineStep_httpOnly content imgs aurl pj uj _ hnull)
  · intro u hu
    unfold isValidImageURL at hu
    by_cases hg : u = "" ∨ ¬ pyStartsWith u "http"
    · rw [if_pos hg] at hu
      cases hu
    · push_neg at hg
      simpa using hg.2

/-- Witness for C9: a valid https image URL passes the scheme check. -/
theorem image_resolution_witness :
    pyStartsWith "https://img.example.com/cover.jpg" "http" = true :=
  image_resolution_amended.2.2.2 "https://img.example.com/cover.jpg" (by decide)

end AINewz
